import Mathlib

/-
Verification of the FarmAiHelp crop-recommendation assistant.

This file gives a shallow embedding, in Lean 4, of the arithmetic core of the
repository (Ai_model/utils/profit_calculator.py, Ai_model/utils/data_processor.py,
Ai_model/models/crop_prediction_model.py) and proves or refutes the testable
properties stated in the specification.

Modelling conventions:
 - Python floats are modelled as exact rationals (ℚ).  Transcendental values
   produced by numpy (sin, tanh, sqrt) are kept symbolic in the inductive type
   FVal and given their real-number semantics by the interpretation FVal.interp.
 - Python dicts whose key sets matter are modelled as ordered association lists
   (List (String × _)), matching the insertion-order semantics of Python dicts.
 - Functions that can raise are modelled in Except String; the error string
   records the Python exception.  Functions with no raise path are total.
 - Fitted scikit-learn estimators (scalers, random forests) are external
   library state; they are carried as opaque function fields of the model
   state, exactly as the specification treats them (a "trainable scorer"
   capability).  The repository logic around them is embedded faithfully.
-/

deriving instance DecidableEq for Except

/-- Values occurring in a feature dictionary of the data processor.  num holds an
exact rational; sin2pi m stands for numpy sin(2*pi*(m/12)); tanhQ q for
numpy tanh(q); sqrtQ q for a pandas rolling standard deviation sqrt(q);
nan for a pandas NaN; str for a Python string value (process_soil_data stores
the raw soil-type string in its result dict). -/
inductive FVal where
  | num (q : ℚ)
  | sin2pi (month : ℕ)
  | tanhQ (q : ℚ)
  | sqrtQ (q : ℚ)
  | nan
  | str (s : String)
deriving DecidableEq, Repr

/-- The five recognized soil categories, in the order listed in
DataProcessor.process_soil_data. -/
def soil_types : List String := ["sandy", "loamy", "clay", "silt", "sandy_loam"]

/-- Embedding of DataProcessor.process_soil_data.  The soil input dict is read
only at key soil_type, with Python default "loamy" (soil_data.get).  The
source has no raise statement: the function is total, and an unrecognized
soil type simply fails every comparison in the one-hot loop. -/
def process_soil_data (soil_data : List (String × String)) (farm_size : ℚ) :
    List (String × FVal) :=
  let soil_type := (soil_data.lookup "soil_type").getD "loamy"
  (("farm_size", FVal.num farm_size) ::
    soil_types.map (fun st => ("soil_type_" ++ st, FVal.num (if soil_type = st then 1 else 0))))
    ++ [("soil_type", FVal.str soil_type)]

/-- The five one-hot entries of a process_soil_data result, in category order
(positions 1 to 5 of the result dict). -/
def soilOneHot (soil_data : List (String × String)) (farm_size : ℚ) : List FVal :=
  (((process_soil_data soil_data farm_size).map Prod.snd).drop 1).take 5

/-- Embedding of ProfitCalculator.cost_factors (all categories default 1.0). -/
def cost_factors : List (String × ℚ) :=
  [("seeds", 1), ("fertilizer", 1), ("irrigation", 1), ("labor", 1),
   ("equipment", 1), ("storage", 1), ("transport", 1), ("insurance", 1)]

/-- The generator sum in calculate_production_cost: cost * cost_factors[factor]
summed over input_costs.items().  Indexing cost_factors with an unknown key is
a Python KeyError, hence the Except. -/
def baseCostSum : List (String × ℚ) → Except String ℚ
  | [] => .ok 0
  | (factor, cost) :: rest =>
    match cost_factors.lookup factor with
    | none => .error ("KeyError: " ++ factor)
    | some cf => (baseCostSum rest).map (fun s => cost * cf + s)

/-- Embedding of ProfitCalculator.calculate_production_cost. -/
def calculate_production_cost (crop_name : String) (area : ℚ)
    (input_costs : List (String × ℚ)) : Except String ℚ :=
  (baseCostSum input_costs).map (fun base_cost => base_cost * area)

/-- The conditions dict of ProfitCalculator.estimate_yield; Option models key
presence, the source defaults are applied by getD in estimate_yield. -/
structure Conditions where
  base_yield : Option ℚ
  weather_quality : Option ℚ
  soil_quality : Option ℚ
  management_efficiency : Option ℚ
deriving DecidableEq, Repr

/-- Embedding of ProfitCalculator.estimate_yield: conditions.get defaults are
base_yield 0 and quality factors 1.0. -/
def estimate_yield (crop_name : String) (area : ℚ) (conditions : Conditions) : ℚ :=
  let base_yield := conditions.base_yield.getD 0
  let weather_factor := conditions.weather_quality.getD 1
  let soil_factor := conditions.soil_quality.getD 1
  let management_factor := conditions.management_efficiency.getD 1
  base_yield * weather_factor * soil_factor * management_factor * area

/-- Embedding of ProfitCalculator.calculate_revenue. -/
def calculate_revenue (crop_name : String) (yield_amount : ℚ) (market_price : ℚ) : ℚ :=
  yield_amount * market_price

/-- Embedding of ProfitCalculator.calculate_profit. -/
def calculate_profit (revenue : ℚ) (total_cost : ℚ) (risk_factor : ℚ) : ℚ :=
  (revenue - total_cost) * (1 - risk_factor)

/-- The market_data dict of analyze_profitability; Option models key presence,
defaults (price_per_ton 0, risk_factor 0.1) are applied by getD. -/
structure MarketTerms where
  price_per_ton : Option ℚ
  risk_factor : Option ℚ
deriving DecidableEq, Repr

/-- Result dict of ProfitCalculator.analyze_profitability. -/
structure ProfitabilityResult where
  total_cost : ℚ
  estimated_yield : ℚ
  expected_revenue : ℚ
  projected_profit : ℚ
  roi : ℚ
  risk_factor : ℚ
deriving DecidableEq, Repr

/-- Embedding of ProfitCalculator.analyze_profitability. -/
def analyze_profitability (crop_name : String) (area : ℚ) (market_data : MarketTerms)
    (conditions : Conditions) (input_costs : List (String × ℚ)) :
    Except String ProfitabilityResult :=
  (calculate_production_cost crop_name area input_costs).map fun total_cost =>
    let estimated_yield := estimate_yield crop_name area conditions
    let market_price := market_data.price_per_ton.getD 0
    let revenue := calculate_revenue crop_name estimated_yield market_price
    let risk_factor := market_data.risk_factor.getD (1/10)
    let profit := calculate_profit revenue total_cost risk_factor
    { total_cost := total_cost
      estimated_yield := estimated_yield
      expected_revenue := revenue
      projected_profit := profit
      roi := if 0 < total_cost then profit / total_cost else 0
      risk_factor := risk_factor }

/-- Return value of calculate_break_even_price: a finite price or the
float inf sentinel. -/
inductive PriceOrInf where
  | price (q : ℚ)
  | inf
deriving DecidableEq, Repr

/-- Embedding of ProfitCalculator.calculate_break_even_price. -/
def calculate_break_even_price (total_cost : ℚ) (estimated_yield : ℚ) : PriceOrInf :=
  if 0 < estimated_yield then PriceOrInf.price (total_cost / estimated_yield)
  else PriceOrInf.inf

/-- Slope coefficient of numpy polyfit(x, y, 1) with x = 0, 1, ..., n-1: the
exact least-squares slope.  For a single point the least-squares system is
rank deficient and numpy returns the minimum-norm solution, slope 0, which the
rational convention q / 0 = 0 reproduces. -/
def polyfitSlope (ys : List ℚ) : ℚ :=
  let n : ℚ := ys.length
  let xs : List ℚ := (List.range ys.length).map (fun i => (i : ℚ))
  let sx := xs.sum
  let sy := ys.sum
  let sxy := ((xs.zip ys).map (fun p => p.1 * p.2)).sum
  let sxx := (xs.map (fun x => x * x)).sum
  (n * sxy - sx * sy) / (n * sxx - sx * sx)

/-- Mean of a pandas Series or numpy array column.  On a non-empty list this is
the exact arithmetic mean (pandas yields NaN on an empty one; theorems that
depend on the mean carry non-emptiness hypotheses). -/
def colMean (xs : List ℚ) : ℚ := xs.sum / xs.length

/-- Embedding of ProfitCalculator.price_weights. -/
def price_weights : List (String × ℚ) :=
  [("historical_trend", 3/10), ("seasonal_factor", 1/5),
   ("market_sentiment", 1/5), ("supply_demand", 3/10)]

/-- Dict indexing self.price_weights[k]; every key used by the source is
present, so the default 0 branch is dead. -/
def weightOf (k : String) : ℚ := (price_weights.lookup k).getD 0

/-- The forecast loop of forecast_price_trend.  Each period appends
max(0, forecast) but carries the UNCLAMPED forecast forward as last_price,
exactly as the source does. -/
def forecastLoop (step : ℚ) : ℕ → ℚ → List ℚ
  | 0, _ => []
  | k + 1, last_price =>
    let forecast := last_price + step
    max 0 forecast :: forecastLoop step k forecast

/-- Embedding of ProfitCalculator.forecast_price_trend.  Two error paths are in
the source: numpy polyfit raises TypeError on an empty series, and the
sentiment sum iterates market_indicators.items() destructuring each pair as
(score, weight) - so score is bound to the STRING key and score * weight is a
Python TypeError for every non-empty dict (str * float is not defined, and
with an int weight the string repetition then fails in sum(0 + str)).  Only an
empty indicator dict reaches the loop, with sentiment_score = sum(()) = 0. -/
def forecast_price_trend (historical_prices : List ℚ) (seasonal_factors : List ℚ)
    (market_indicators : List (String × ℚ)) (forecast_period : ℕ) :
    Except String (List ℚ) :=
  if historical_prices.isEmpty then
    .error "TypeError: expected non-empty vector for x"
  else
    let historical_trend := polyfitSlope historical_prices
    let seasonal_component := colMean seasonal_factors
    if market_indicators.isEmpty then
      let sentiment_score : ℚ := 0
      let step := historical_trend * weightOf "historical_trend" +
        seasonal_component * weightOf "seasonal_factor" +
        sentiment_score * weightOf "market_sentiment"
      .ok (forecastLoop step forecast_period (historical_prices.getLastD 0))
    else
      .error "TypeError: cannot multiply sequence by non-int of type float"

/-- Worked-example market data: price_per_ton 300, risk_factor 0.1. -/
def c4_market : MarketTerms := ⟨some 300, some (1/10)⟩

/-- Worked-example conditions: base_yield and all quality factors 1.0. -/
def c4_conditions : Conditions := ⟨some 1, some 1, some 1, some 1⟩

/-- Worked-example input costs summing to 1000 per unit area. -/
def c4_costs : List (String × ℚ) := [("seeds", 400), ("fertilizer", 600)]

/-- Expected worked-example result (roi = -1260/2000 = -63/100). -/
def c4_result : ProfitabilityResult := ⟨2000, 2, 600, -1260, -63/100, 1/10⟩

/-- A non-empty market-indicator configuration for the forecaster. -/
def c5_indicators : List (String × ℚ) := [("demand_index", 1/5)]

/-- C3 helper theorem inputs live inline; nothing else needed here. -/
def probe_market : MarketTerms := ⟨some 10, some 0⟩

/-- Probe conditions for the roi policy witness: base_yield 1, others default. -/
def probe_conditions : Conditions := ⟨some 1, none, none, none⟩

/-- Probe result of analyze_profitability for the roi policy witness. -/
def probe_result : ProfitabilityResult := ⟨5, 1, 10, 5, 1, 0⟩

/-- A fitted StandardScaler, as an external scikit-learn object: only its
transform and inverse_transform operations are visible to the repository. -/
structure FittedScaler where
  transform : List ℚ → List ℚ
  inverse_transform : List ℚ → List ℚ

/-- A fitted RandomForestRegressor, as an external scikit-learn object: only
predict (on one feature row) and score (R squared) are visible. -/
structure FittedRegressor where
  predict : List ℚ → ℚ
  score : List ℚ → List ℚ → ℚ

/-- State of CropPredictionModel: the training flags and per-crop dicts from
__init__, with the fitted estimators carried as opaque function fields. -/
structure CropPredictionModel where
  is_crop_model_trained : Bool
  crop_scaler : List ℚ → List ℚ
  crop_classes : List String
  crop_predict_proba : List ℚ → List ℚ
  trained_crops : List String
  price_scalers : List (String × FittedScaler)
  price_models : List (String × FittedRegressor)

/-- numpy argsort: indices sorted by ascending value (stable on ties in this
model; numpy quicksort leaves tie order unspecified, which no claim uses). -/
def argsortAsc (xs : List ℚ) : List ℕ :=
  List.insertionSort (fun i j => xs.getD i 0 ≤ xs.getD j 0) (List.range xs.length)

/-- Embedding of CropPredictionModel.predict_best_crops: the untrained guard
raises ValueError, then scale, predict_proba, argsort, take last n, reverse,
map class indices to labels. -/
def predict_best_crops (model : CropPredictionModel) (features : List ℚ)
    (n_recommendations : ℕ) : Except String (List String) :=
  if model.is_crop_model_trained = false then
    .error "Crop model must be trained before making predictions"
  else
    let scaled := model.crop_scaler features
    let probs := model.crop_predict_proba scaled
    let top_indices := ((argsortAsc probs).drop (probs.length - n_recommendations)).reverse
    .ok (top_indices.map (fun i => model.crop_classes.getD i ""))

/-- The per-period loop of predict_future_price: predict a price, record it,
then overwrite the LAST feature entry with the predicted price. -/
def priceLoop (reg : FittedRegressor) : ℕ → List ℚ → List ℚ
  | 0, _ => []
  | k + 1, current_features =>
    let price := reg.predict current_features
    price :: priceLoop reg k (current_features.set (current_features.length - 1) price)

/-- Embedding of CropPredictionModel.predict_future_price.  The first guard
(crop not in trained_crops) raises ValueError; preprocess_price_data raises
the same ValueError if the crop has no scaler; indexing price_models with a
missing crop would be a KeyError.  The trained path runs the prediction loop
and computes the R squared confidence from the scaled features and the
inverse-transformed input. -/
def predict_future_price (model : CropPredictionModel) (features : List ℚ)
    (crop : String) (forecast_periods : ℕ) : Except String (List ℚ × ℚ) :=
  if crop ∉ model.trained_crops then
    .error ("No price model trained for crop: " ++ crop)
  else
    match model.price_scalers.lookup crop with
    | none => .error ("No price model trained for crop: " ++ crop)
    | some scaler =>
      match model.price_models.lookup crop with
      | none => .error ("KeyError: " ++ crop)
      | some reg =>
        let scaled := scaler.transform features
        let future_prices := priceLoop reg forecast_periods scaled
        let confidence := reg.score scaled (scaler.inverse_transform features)
        .ok (future_prices, confidence)

/-- A model state with an untrained crop classifier but a trained price
regressor for wheat (and none for rice). -/
def demo_model : CropPredictionModel :=
  { is_crop_model_trained := false
    crop_scaler := fun f => f
    crop_classes := ["wheat"]
    crop_predict_proba := fun _ => [1]
    trained_crops := ["wheat"]
    price_scalers := [("wheat", ⟨fun f => f, fun f => f⟩)]
    price_models := [("wheat", ⟨fun _ => 100, fun _ _ => 1⟩)] }

/-- The cleaned weather DataFrame consumed by prepare_prediction_features.
temperature, humidity and rainfall columns are indexed unconditionally by the
source (a missing column is a pandas KeyError), so they are required; the
heat_index and soil_moisture columns are guarded by membership tests, so they
are optional. -/
structure WeatherDF where
  temperature : List ℚ
  humidity : List ℚ
  rainfall : List ℚ
  heat_index : Option (List ℚ)
  soil_moisture : Option (List ℚ)
deriving DecidableEq, Repr

/-- The market_data dict of prepare_prediction_features; Option models key
presence, the source defaults (0 for the three indices via dict.get, trend 0
when price_history is absent) are applied in the embedding. -/
structure MarketInfo where
  current_price : Option ℚ
  demand_index : Option ℚ
  supply_index : Option ℚ
  price_history : Option (List ℚ)
deriving DecidableEq, Repr

/-- Mean of an optional column: the column mean when the column exists,
otherwise the literal 0 of the conditional expression in the source. -/
def optColMean : Option (List ℚ) → ℚ
  | some xs => colMean xs
  | none => 0

/-- The weather_features dict of prepare_prediction_features, in source
insertion order. -/
def weather_features (w : WeatherDF) : List (String × FVal) :=
  [("temperature", FVal.num (colMean w.temperature)),
   ("humidity", FVal.num (colMean w.humidity)),
   ("rainfall", FVal.num (colMean w.rainfall)),
   ("heat_index", FVal.num (optColMean w.heat_index)),
   ("soil_moisture", FVal.num (optColMean w.soil_moisture))]

/-- Embedding of DataProcessor._calculate_market_trend: 0 without a
price_history key, 0 for fewer than two points, else tanh of the linear-fit
slope. -/
def calculate_market_trend (m : MarketInfo) : FVal :=
  match m.price_history with
  | none => FVal.num 0
  | some prices =>
    if prices.length < 2 then FVal.num 0 else FVal.tanhQ (polyfitSlope prices)

/-- Embedding of DataProcessor._get_seasonal_factor: numpy sin(2 pi month/12)
of the month of the supplied date (the caller passes datetime.now()). -/
def get_seasonal_factor (month : ℕ) : FVal := FVal.sin2pi month

/-- The market_features dict of prepare_prediction_features, in source
insertion order.  now_month is the month of the ambient datetime.now() at the
moment of the call. -/
def market_features (m : MarketInfo) (now_month : ℕ) : List (String × FVal) :=
  [("current_price", FVal.num (m.current_price.getD 0)),
   ("demand_index", FVal.num (m.demand_index.getD 0)),
   ("supply_index", FVal.num (m.supply_index.getD 0)),
   ("market_trend", calculate_market_trend m),
   ("seasonal_factor", get_seasonal_factor now_month)]

/-- Python dict update of a single key: overwrite in place when the key is
present, append otherwise. -/
def dictInsert (d : List (String × FVal)) (k : String) (v : FVal) : List (String × FVal) :=
  if (d.lookup k).isSome then d.map (fun p => if p.1 = k then (k, v) else p)
  else d ++ [(k, v)]

/-- Python double-star dict merge: fold the right dict into the left one. -/
def dictMerge (a b : List (String × FVal)) : List (String × FVal) :=
  b.foldl (fun acc p => dictInsert acc p.1 p.2) a

/-- The k-wide backward-looking window ending at index i of a series. -/
def rollingWindow (k i : ℕ) (xs : List ℚ) : List ℚ :=
  (xs.take (i + 1)).drop (i + 1 - k)

/-- pandas Series.rolling(k).mean(): NaN until a full window exists. -/
def rollingMean (k : ℕ) (xs : List ℚ) : List FVal :=
  (List.range xs.length).map fun i =>
    if i + 1 < k then FVal.nan else FVal.num (colMean (rollingWindow k i xs))

/-- The sample variance (pandas default ddof = 1) of a window. -/
def sampleVariance (w : List ℚ) : ℚ :=
  ((w.map (fun x => (x - colMean w) ^ 2)).sum) / ((w.length : ℚ) - 1)

/-- pandas Series.rolling(k).std(): NaN until a full window exists, then the
square root of the sample variance, kept symbolic. -/
def rollingStd (k : ℕ) (xs : List ℚ) : List FVal :=
  (List.range xs.length).map fun i =>
    if i + 1 < k then FVal.nan else FVal.sqrtQ (sampleVariance (rollingWindow k i xs))

/-- pandas fillna(method=bfill): every NaN takes the next valid value at or
after its position (NaNs with no later valid value stay NaN). -/
def bfill : List FVal → List FVal
  | [] => []
  | v :: rest =>
    let r := bfill rest
    (if v = FVal.nan then r.headD FVal.nan else v) :: r

/-- The 7-period momentum of _prepare_price_features: prices - np.roll(prices, 7)
with the first seven entries zeroed (np.roll wraps, but the wrapped positions
are exactly the zeroed ones). -/
def momentum (xs : List ℚ) : List ℚ :=
  (List.range xs.length).map fun i =>
    if i < 7 then 0 else xs.getD i 0 - xs.getD (i - 7) 0

/-- Embedding of DataProcessor._prepare_price_features: one row per historical
price with raw price, backfilled 7- and 30-period moving averages, momentum,
backfilled 14-period rolling standard deviation, and the two market indices
broadcast to every row. -/
def prepare_price_features (historical_prices : List ℚ)
    (mf : List (String × FVal)) : List (List FVal) :=
  let prices := historical_prices
  let ma_7 := bfill (rollingMean 7 prices)
  let ma_30 := bfill (rollingMean 30 prices)
  let mom := momentum prices
  let volatility := bfill (rollingStd 14 prices)
  let demand := (mf.lookup "demand_index").getD (FVal.num 0)
  let supply := (mf.lookup "supply_index").getD (FVal.num 0)
  (List.range prices.length).map fun i =>
    [FVal.num (prices.getD i 0), ma_7.getD i FVal.nan, ma_30.getD i FVal.nan,
     FVal.num (mom.getD i 0), volatility.getD i FVal.nan, demand, supply]

/-- Return value of prepare_prediction_features.  crop_features keeps the full
ordered dict (the source flattens its values into a numpy row in the same
order); price_features is None without historical prices. -/
structure PreparedFeatures where
  crop_features : List (String × FVal)
  price_features : Option (List (List FVal))
deriving DecidableEq, Repr

/-- Embedding of DataProcessor.prepare_prediction_features.  now_month models
the month of datetime.now() read inside the function - it is ambient state of
the call, not one of the four data arguments. -/
def prepare_prediction_features (weather_data : WeatherDF)
    (soil_data : List (String × FVal)) (market_data : MarketInfo)
    (historical_prices : Option (List ℚ)) (now_month : ℕ) : PreparedFeatures :=
  let wf := weather_features weather_data
  let mf := market_features market_data now_month
  { crop_features := dictMerge (dictMerge wf soil_data) mf
    price_features := historical_prices.map (fun h => prepare_price_features h mf) }

/-- The crop-feature dict produced for a raw soil dict, as the pipeline calls
it: process_soil_data feeds prepare_prediction_features. -/
def builtCropFeatures (w : WeatherDF) (soil_data : List (String × String))
    (farm_size : ℚ) (m : MarketInfo) (historical_prices : Option (List ℚ))
    (now_month : ℕ) : List (String × FVal) :=
  (prepare_prediction_features w (process_soil_data soil_data farm_size) m
    historical_prices now_month).crop_features

/-- Semantic (floating-point level) value of a feature entry: a real number, a
NaN, or a string. -/
inductive SemVal where
  | real (r : ℝ)
  | nan
  | str (s : String)

/-- Real-number semantics of a symbolic feature value. -/
noncomputable def FVal.interp : FVal → SemVal
  | FVal.num q => SemVal.real q
  | FVal.sin2pi m => SemVal.real (Real.sin (2 * Real.pi * ((m : ℝ) / 12)))
  | FVal.tanhQ q => SemVal.real (Real.tanh q)
  | FVal.sqrtQ q => SemVal.real (Real.sqrt q)
  | FVal.nan => SemVal.nan
  | FVal.str s => SemVal.str s

/-- A feature dict under real-number semantics: the numeric vector the models
actually receive. -/
noncomputable def interpDict (d : List (String × FVal)) : List (String × SemVal) :=
  d.map (fun p => (p.1, p.2.interp))

/-- Concrete weather input for the determinism analysis. -/
def c6_weather : WeatherDF := ⟨[20], [50], [0], none, none⟩

/-- Concrete processed soil input for the determinism analysis. -/
def c6_soil : List (String × FVal) := process_soil_data [] 1

/-- Concrete market input for the determinism analysis. -/
def c6_market : MarketInfo := ⟨none, none, none, none⟩

/-- A concrete non-degenerate weather frame for witnesses. -/
def probe_weather : WeatherDF := ⟨[20, 30], [50], [0], none, none⟩

/-- Per-crop entry of get_comprehensive_prediction results.  Only the fields
inspected by the final sort are modelled: the construction site is
unreachable (see get_comprehensive_prediction below), so no entry is ever
built. -/
structure CropAnalysis where
  crop : String
  projected_profit : ℚ
deriving DecidableEq, Repr

/-- Embedding of CropPredictionModel.get_weather_data.  weather_api_result
models whether the weather API returned data.  When it did, the source calls
self.data_processor.process_weather_data, a method that does not exist
anywhere in the repository - an AttributeError.  When it did not, the method
returns the empty dict. -/
def get_weather_data (weather_api_result : Bool) : Except String (List (String × FVal)) :=
  if weather_api_result then
    .error "AttributeError: DataProcessor object has no attribute process_weather_data"
  else
    .ok []

/-- The per-crop loop of get_comprehensive_prediction.  market_analysis models
get_market_analysis: none is the empty dict returned when the market API has
no records, and a crop with no data is skipped by the continue.  For a crop
WITH data the source immediately calls self.data_processor.combine_features,
a method that does not exist anywhere in the repository - an AttributeError
that aborts the whole request. -/
def cropLoop (market_analysis : String → Option ℚ) :
    List String → Except String (List CropAnalysis)
  | [] => .ok []
  | crop :: rest =>
    match market_analysis crop with
    | none => cropLoop market_analysis rest
    | some _ =>
      .error "AttributeError: DataProcessor object has no attribute combine_features"

/-- The final sort of get_comprehensive_prediction: stable sort by
projected_profit, highest first (Python list.sort with reverse=True). -/
def sortByProfitDesc (l : List CropAnalysis) : List CropAnalysis :=
  List.insertionSort (fun a b => b.projected_profit ≤ a.projected_profit) l

/-- Embedding of CropPredictionModel.get_comprehensive_prediction: fetch
weather, run the per-crop loop, sort the collected analyses by projected
profit descending. -/
def get_comprehensive_prediction (weather_api_result : Bool)
    (market_analysis : String → Option ℚ) (crops : List String) :
    Except String (List CropAnalysis) :=
  (get_weather_data weather_api_result).bind fun _ =>
    (cropLoop market_analysis crops).map sortByProfitDesc

/-- The ranking scenario of the specification: crop A has market data with
profit potential 1000, B with 1500, C has no market data. -/
def c7_market : String → Option ℚ := fun crop =>
  if crop = "A" then some 1000 else if crop = "B" then some 1500 else none

/-- C2: for all inputs, the roi returned by analyze_profitability equals
projected_profit / total_cost when total_cost is positive and is exactly 0
otherwise.  In the rational model there is no NaN or infinity to produce. -/
theorem roi_division_policy (crop_name : String) (area : ℚ) (market_data : MarketTerms)
    (conditions : Conditions) (input_costs : List (String × ℚ)) (r : ProfitabilityResult)
    (h : analyze_profitability crop_name area market_data conditions input_costs = .ok r) :
    (0 < r.total_cost → r.roi = r.projected_profit / r.total_cost) ∧
    (¬ 0 < r.total_cost → r.roi = 0) := by
  unfold analyze_profitability at h
  cases hc : calculate_production_cost crop_name area input_costs with
  | error e => rw [hc] at h; simp [Except.map] at h
  | ok tc =>
    rw [hc] at h
    simp only [Except.map, Except.ok.injEq] at h
    subst h
    constructor
    · intro h0
      simp only [if_pos h0]
    · intro h0
      simp only [if_neg h0]

/-- Witness for roi_division_policy at a concrete profitable input. -/
theorem roi_division_policy_check :
    (0 < probe_result.total_cost →
      probe_result.roi = probe_result.projected_profit / probe_result.total_cost) ∧
    (¬ 0 < probe_result.total_cost → probe_result.roi = 0) :=
  roi_division_policy "wheat" 1 probe_market probe_conditions [("seeds", 5)]
    probe_result (by
      simp [analyze_profitability, calculate_production_cost, baseCostSum,
        cost_factors, Except.map, estimate_yield, calculate_revenue, calculate_profit,
        probe_market, probe_conditions, probe_result, List.lookup]
      norm_num)

/-- C3: calculate_break_even_price returns total_cost / estimated_yield for a
positive yield and the infinity sentinel when the yield is zero. -/
theorem break_even_infinity_sentinel (total_cost estimated_yield : ℚ) :
    (0 < estimated_yield →
      calculate_break_even_price total_cost estimated_yield =
        PriceOrInf.price (total_cost / estimated_yield)) ∧
    (estimated_yield = 0 →
      calculate_break_even_price total_cost estimated_yield = PriceOrInf.inf) := by
  constructor
  · intro h
    simp [calculate_break_even_price, h]
  · intro h
    subst h
    simp [calculate_break_even_price]

/-- Witness for break_even_infinity_sentinel at yields 2 and 0. -/
theorem break_even_infinity_sentinel_check :
    calculate_break_even_price 6 2 = PriceOrInf.price (6 / 2) ∧
    calculate_break_even_price 6 0 = PriceOrInf.inf :=
  ⟨(break_even_infinity_sentinel 6 2).1 (by norm_num),
   (break_even_infinity_sentinel 6 0).2 rfl⟩

/-- C4: the profitability worked example.  With area 2, base_yield 1 and all
quality factors 1, price 300, risk 0.1 and input costs summing to 1000 per
unit area under default cost factors, analyze_profitability returns
estimated_yield 2, revenue 600, total_cost 2000 and profit -1260. -/
theorem profitability_worked_example :
    analyze_profitability "wheat" 2 c4_market c4_conditions c4_costs = .ok c4_result := by
  simp [analyze_profitability, calculate_production_cost, baseCostSum,
    cost_factors, Except.map, estimate_yield, calculate_revenue, calculate_profit,
    c4_market, c4_conditions, c4_costs, c4_result, List.lookup]
  norm_num

/-- C5: evaluation of forecast_price_trend.  With any non-empty market
indicator dict the source raises TypeError before forecasting (the sentiment
sum multiplies each dict KEY, a string, by the float value); with the empty
indicator dict the same series yields the forecast 113.1, 116.2, 119.3, all
non-negative as every appended value is max(0, forecast). -/
theorem forecast_indicator_type_error :
    forecast_price_trend [100, 110] [1/2] c5_indicators 3 =
      .error "TypeError: cannot multiply sequence by non-int of type float" ∧
    forecast_price_trend [100, 110] [1/2] [] 3 =
      .ok [1131/10, 1162/10, 1193/10] := by
  constructor
  · simp [forecast_price_trend, c5_indicators]
  · simp [forecast_price_trend, polyfitSlope, colMean, weightOf, price_weights,
      forecastLoop, List.range_succ, List.lookup]
    norm_num [max_def]

/-- C1 counterexample: an unrecognized soil type does NOT raise a validation
error.  process_soil_data has no raise path (it is a total function), and for
soil type "peat" it silently returns a one-hot block whose five entries are
all 0.0 - the exactly-one-1.0 invariant fails and no InvalidSoilType error
exists anywhere in the source. -/
theorem soil_unknown_type_counterexample :
    process_soil_data [("soil_type", "peat")] 7 =
      [("farm_size", FVal.num 7),
       ("soil_type_sandy", FVal.num 0), ("soil_type_loamy", FVal.num 0),
       ("soil_type_clay", FVal.num 0), ("soil_type_silt", FVal.num 0),
       ("soil_type_sandy_loam", FVal.num 0), ("soil_type", FVal.str "peat")] ∧
    (soilOneHot [("soil_type", "peat")] 7).count (FVal.num 1) = 0 := by
  constructor
  · simp [process_soil_data, soil_types, List.lookup]
  · simp [soilOneHot, process_soil_data, soil_types, List.lookup]

/-- C1 amended: for a recognized soil type the one-hot block has exactly one
1.0 entry and four 0.0 entries; for an unrecognized soil type the function
silently returns five 0.0 entries (no error is raised). -/
theorem soil_one_hot_amended (soil_data : List (String × String)) (farm_size : ℚ)
    (st : String) (hst : (soil_data.lookup "soil_type").getD "loamy" = st) :
    (st ∈ soil_types →
      (soilOneHot soil_data farm_size).count (FVal.num 1) = 1 ∧
      (soilOneHot soil_data farm_size).count (FVal.num 0) = 4) ∧
    (st ∉ soil_types → soilOneHot soil_data farm_size = List.replicate 5 (FVal.num 0)) := by
  have hoh : soilOneHot soil_data farm_size =
      [FVal.num (if st = "sandy" then 1 else 0), FVal.num (if st = "loamy" then 1 else 0),
       FVal.num (if st = "clay" then 1 else 0), FVal.num (if st = "silt" then 1 else 0),
       FVal.num (if st = "sandy_loam" then 1 else 0)] := by
    simp [soilOneHot, process_soil_data, soil_types, hst]
  constructor
  · intro hmem
    rw [hoh]
    simp only [soil_types, List.mem_cons, List.not_mem_nil, or_false] at hmem
    rcases hmem with rfl | rfl | rfl | rfl | rfl <;> simp [List.count_cons]
  · intro hmem
    rw [hoh]
    simp only [soil_types, List.mem_cons, List.not_mem_nil, or_false, not_or] at hmem
    obtain ⟨h1, h2, h3, h4, h5⟩ := hmem
    simp [h1, h2, h3, h4, h5, List.replicate]

/-- Witness for soil_one_hot_amended at the recognized soil type clay. -/
theorem soil_one_hot_amended_check :
    (soilOneHot [("soil_type", "clay")] 2).count (FVal.num 1) = 1 ∧
    (soilOneHot [("soil_type", "clay")] 2).count (FVal.num 0) = 4 :=
  (soil_one_hot_amended [("soil_type", "clay")] 2 "clay" (by decide)).1 (by decide)

/-- C10: when the soil input dict has no soil_type key at all, process_soil_data
silently uses the Python default "loamy": the loamy entry is 1.0, the other
four are 0.0, the echoed soil_type is "loamy", and no error is raised. -/
theorem soil_missing_key_defaults_loamy (soil_data : List (String × String))
    (farm_size : ℚ) (h : soil_data.lookup "soil_type" = none) :
    process_soil_data soil_data farm_size =
      [("farm_size", FVal.num farm_size),
       ("soil_type_sandy", FVal.num 0), ("soil_type_loamy", FVal.num 1),
       ("soil_type_clay", FVal.num 0), ("soil_type_silt", FVal.num 0),
       ("soil_type_sandy_loam", FVal.num 0), ("soil_type", FVal.str "loamy")] := by
  simp [process_soil_data, h, soil_types]

/-- Witness for soil_missing_key_defaults_loamy on a dict without soil_type. -/
theorem soil_missing_key_defaults_loamy_check :
    process_soil_data [("ph", "high")] 3 =
      [("farm_size", FVal.num 3),
       ("soil_type_sandy", FVal.num 0), ("soil_type_loamy", FVal.num 1),
       ("soil_type_clay", FVal.num 0), ("soil_type_silt", FVal.num 0),
       ("soil_type_sandy_loam", FVal.num 0), ("soil_type", FVal.str "loamy")] :=
  soil_missing_key_defaults_loamy [("ph", "high")] 3 (by decide)

/-- C8: every prediction call on an untrained model fails.  predict_best_crops
raises its ValueError whenever the crop-suitability flag is false, and
predict_future_price raises its ValueError whenever the requested crop has no
trained price regressor, regardless of which other crops are trained. -/
theorem untrained_models_not_fitted (model : CropPredictionModel) (features : List ℚ)
    (n : ℕ) (crop : String) (periods : ℕ) :
    (model.is_crop_model_trained = false →
      predict_best_crops model features n =
        .error "Crop model must be trained before making predictions") ∧
    (crop ∉ model.trained_crops →
      predict_future_price model features crop periods =
        .error ("No price model trained for crop: " ++ crop)) := by
  constructor
  · intro h
    simp [predict_best_crops, h]
  · intro h
    simp [predict_future_price, h]

/-- Witness for untrained_models_not_fitted: demo_model is untrained for crop
selection and has a wheat price regressor but none for rice. -/
theorem untrained_models_not_fitted_check :
    predict_best_crops demo_model [1, 2] 3 =
      .error "Crop model must be trained before making predictions" ∧
    predict_future_price demo_model [1, 2] "rice" 12 =
      .error ("No price model trained for crop: " ++ "rice") :=
  ⟨(untrained_models_not_fitted demo_model [1, 2] 3 "rice" 12).1 rfl,
   (untrained_models_not_fitted demo_model [1, 2] 3 "rice" 12).2 (by decide)⟩

/-- Lookup commutes with the semantic interpretation of a feature dict. -/
theorem lookup_interpDict (d : List (String × FVal)) (k : String) :
    (interpDict d).lookup k = (d.lookup k).map FVal.interp := by
  induction d with
  | nil => rfl
  | cons p rest ih =>
    obtain ⟨k1, v1⟩ := p
    simp only [interpDict, List.map_cons] at ih ⊢
    cases hb : k == k1 <;> simp [List.lookup, hb, ih]

/-- C6 counterexample: prepare_prediction_features is NOT a function of its
four data inputs alone.  It reads datetime.now() for the seasonal factor, so
two calls with identical weather, soil, market and historical-price inputs
made in month 1 and month 3 produce numerically different feature vectors
(seasonal factor sin(pi/6) = 1/2 versus sin(pi/2) = 1). -/
theorem feature_builder_clock_counterexample :
    interpDict (prepare_prediction_features c6_weather c6_soil c6_market none 1).crop_features ≠
      interpDict (prepare_prediction_features c6_weather c6_soil c6_market none 3).crop_features := by
  intro h
  have h1 : ((prepare_prediction_features c6_weather c6_soil c6_market none 1).crop_features).lookup
      "seasonal_factor" = some (FVal.sin2pi 1) := by decide
  have h3 : ((prepare_prediction_features c6_weather c6_soil c6_market none 3).crop_features).lookup
      "seasonal_factor" = some (FVal.sin2pi 3) := by decide
  have h2 := congrArg (List.lookup "seasonal_factor") h
  rw [lookup_interpDict, lookup_interpDict, h1, h3] at h2
  have h4 : (FVal.sin2pi 1).interp = (FVal.sin2pi 3).interp := Option.some.inj h2
  have h5 : Real.sin (2 * Real.pi * (((1 : ℕ) : ℝ) / 12)) =
      Real.sin (2 * Real.pi * (((3 : ℕ) : ℝ) / 12)) := SemVal.real.inj h4
  rw [show 2 * Real.pi * (((1 : ℕ) : ℝ) / 12) = Real.pi / 6 by push_cast; ring,
    show 2 * Real.pi * (((3 : ℕ) : ℝ) / 12) = Real.pi / 2 by push_cast; ring,
    Real.sin_pi_div_six, Real.sin_pi_div_two] at h5
  norm_num at h5

/-- C6 amended: the feature builder is deterministic in its four data inputs
TOGETHER WITH the ambient clock month read inside the call - two calls with
identical inputs made in the same month produce identical outputs, values and
field order alike. -/
theorem feature_builder_deterministic (w1 w2 : WeatherDF)
    (s1 s2 : List (String × FVal)) (m1 m2 : MarketInfo)
    (p1 p2 : Option (List ℚ)) (mo1 mo2 : ℕ)
    (hw : w1 = w2) (hs : s1 = s2) (hm : m1 = m2) (hp : p1 = p2) (hmo : mo1 = mo2) :
    prepare_prediction_features w1 s1 m1 p1 mo1 =
      prepare_prediction_features w2 s2 m2 p2 mo2 := by
  rw [hw, hs, hm, hp, hmo]

/-- Witness for feature_builder_deterministic at concrete identical calls. -/
theorem feature_builder_deterministic_check :
    prepare_prediction_features c6_weather c6_soil c6_market none 1 =
      prepare_prediction_features c6_weather c6_soil c6_market none 1 :=
  feature_builder_deterministic c6_weather c6_weather c6_soil c6_soil c6_market c6_market
    none none 1 1 rfl rfl rfl rfl rfl

/-- Lookup skips a prefix in which the key does not occur. -/
theorem lookup_append (l1 l2 : List (String × FVal)) (k : String)
    (h : l1.lookup k = none) : (l1 ++ l2).lookup k = l2.lookup k := by
  induction l1 with
  | nil => rfl
  | cons p rest ih =>
    obtain ⟨k1, v1⟩ := p
    cases hb : k == k1 with
    | false =>
      simp only [List.cons_append, List.lookup, hb] at h ⊢
      exact ih h
    | true => simp [List.lookup, hb] at h

/-- Merging a dict whose keys are fresh for the receiver and mutually distinct
is plain concatenation. -/
theorem dictMerge_of_fresh (a b : List (String × FVal))
    (hfresh : ∀ k ∈ b.map Prod.fst, a.lookup k = none)
    (hnodup : (b.map Prod.fst).Nodup) :
    dictMerge a b = a ++ b := by
  induction b generalizing a with
  | nil => simp [dictMerge]
  | cons p rest ih =>
    obtain ⟨k, v⟩ := p
    have ha : a.lookup k = none := hfresh k (by simp)
    have hstep : dictInsert a k v = a ++ [(k, v)] := by
      simp [dictInsert, ha]
    have hk : k ∉ rest.map Prod.fst := by
      simp only [List.map_cons, List.nodup_cons] at hnodup
      exact hnodup.1
    have hnodup2 : (rest.map Prod.fst).Nodup := by
      simp only [List.map_cons, List.nodup_cons] at hnodup
      exact hnodup.2
    have hfresh2 : ∀ q ∈ rest.map Prod.fst, (a ++ [(k, v)]).lookup q = none := by
      intro q hq
      have hqa : a.lookup q = none := hfresh q (by simp [hq])
      rw [lookup_append a [(k, v)] q hqa]
      have hne : q ≠ k := fun he => hk (he ▸ hq)
      cases hb : q == k with
      | true => exact absurd (eq_of_beq hb) hne
      | false => simp [List.lookup, hb]
    calc dictMerge a ((k, v) :: rest)
        = dictMerge (dictInsert a k v) rest := rfl
      _ = dictMerge (a ++ [(k, v)]) rest := by rw [hstep]
      _ = (a ++ [(k, v)]) ++ rest := ih (a ++ [(k, v)]) hfresh2 hnodup2
      _ = a ++ ((k, v) :: rest) := by simp

set_option maxHeartbeats 1000000 in
/-- The crop-feature dict is the concatenation of the weather, soil and market
feature dicts: all twelve inserted keys are fresh, so each Python dict-merge
appends. -/
theorem builtCropFeatures_eq (w : WeatherDF) (sd : List (String × String)) (fs : ℚ)
    (m : MarketInfo) (hist : Option (List ℚ)) (mo : ℕ) :
    builtCropFeatures w sd fs m hist mo =
      (weather_features w ++ process_soil_data sd fs) ++ market_features m mo := by
  have hkeys : (process_soil_data sd fs).map Prod.fst =
      ["farm_size", "soil_type_sandy", "soil_type_loamy", "soil_type_clay",
       "soil_type_silt", "soil_type_sandy_loam", "soil_type"] := rfl
  have hkeys2 : (market_features m mo).map Prod.fst =
      ["current_price", "demand_index", "supply_index", "market_trend",
       "seasonal_factor"] := rfl
  have h1 : dictMerge (weather_features w) (process_soil_data sd fs) =
      weather_features w ++ process_soil_data sd fs := by
    apply dictMerge_of_fresh
    · rw [hkeys]
      intro k hk
      fin_cases hk <;> rfl
    · rw [hkeys]
      decide
  have h2 : dictMerge (weather_features w ++ process_soil_data sd fs)
      (market_features m mo) =
      (weather_features w ++ process_soil_data sd fs) ++ market_features m mo := by
    apply dictMerge_of_fresh
    · rw [hkeys2]
      intro k hk
      fin_cases hk <;> rfl
    · rw [hkeys2]
      decide
  unfold builtCropFeatures prepare_prediction_features
  dsimp only
  rw [h1, h2]

set_option maxHeartbeats 1000000 in
/-- C9: in the built crop-feature dict, the temperature, humidity and rainfall
features are the means of their columns, the optional heat_index and
soil_moisture features are the means of their columns when the columns exist,
and each missing optional column contributes the feature value 0. -/
theorem weather_aggregation_means (w : WeatherDF) (soil_data : List (String × String))
    (farm_size : ℚ) (m : MarketInfo) (hist : Option (List ℚ)) (now_month : ℕ)
    (htemp : w.temperature ≠ []) (hhum : w.humidity ≠ []) (hrain : w.rainfall ≠ []) :
    (builtCropFeatures w soil_data farm_size m hist now_month).lookup "temperature" =
      some (FVal.num (colMean w.temperature)) ∧
    (builtCropFeatures w soil_data farm_size m hist now_month).lookup "humidity" =
      some (FVal.num (colMean w.humidity)) ∧
    (builtCropFeatures w soil_data farm_size m hist now_month).lookup "rainfall" =
      some (FVal.num (colMean w.rainfall)) ∧
    (builtCropFeatures w soil_data farm_size m hist now_month).lookup "heat_index" =
      some (FVal.num (optColMean w.heat_index)) ∧
    (builtCropFeatures w soil_data farm_size m hist now_month).lookup "soil_moisture" =
      some (FVal.num (optColMean w.soil_moisture)) ∧
    (w.heat_index = none →
      (builtCropFeatures w soil_data farm_size m hist now_month).lookup "heat_index" =
        some (FVal.num 0)) ∧
    (w.soil_moisture = none →
      (builtCropFeatures w soil_data farm_size m hist now_month).lookup "soil_moisture" =
        some (FVal.num 0)) := by
  have he := builtCropFeatures_eq w soil_data farm_size m hist now_month
  have hhi : List.lookup "heat_index"
      ((weather_features w ++ process_soil_data soil_data farm_size) ++
        market_features m now_month) = some (FVal.num (optColMean w.heat_index)) := rfl
  have hsm : List.lookup "soil_moisture"
      ((weather_features w ++ process_soil_data soil_data farm_size) ++
        market_features m now_month) = some (FVal.num (optColMean w.soil_moisture)) := rfl
  refine ⟨?_, ?_, ?_, ?_, ?_, ?_, ?_⟩
  · rw [he]
    rfl
  · rw [he]
    rfl
  · rw [he]
    rfl
  · rw [he]
    rfl
  · rw [he]
    rfl
  · intro h
    rw [he, hhi, h]
    rfl
  · intro h
    rw [he, hsm, h]
    rfl

/-- Witness for weather_aggregation_means on a concrete two-row window. -/
theorem weather_aggregation_means_check :
    (builtCropFeatures probe_weather [] 1 c6_market none 6).lookup "temperature" =
      some (FVal.num (colMean probe_weather.temperature)) ∧
    (builtCropFeatures probe_weather [] 1 c6_market none 6).lookup "humidity" =
      some (FVal.num (colMean probe_weather.humidity)) ∧
    (builtCropFeatures probe_weather [] 1 c6_market none 6).lookup "rainfall" =
      some (FVal.num (colMean probe_weather.rainfall)) ∧
    (builtCropFeatures probe_weather [] 1 c6_market none 6).lookup "heat_index" =
      some (FVal.num (optColMean probe_weather.heat_index)) ∧
    (builtCropFeatures probe_weather [] 1 c6_market none 6).lookup "soil_moisture" =
      some (FVal.num (optColMean probe_weather.soil_moisture)) ∧
    (probe_weather.heat_index = none →
      (builtCropFeatures probe_weather [] 1 c6_market none 6).lookup "heat_index" =
        some (FVal.num 0)) ∧
    (probe_weather.soil_moisture = none →
      (builtCropFeatures probe_weather [] 1 c6_market none 6).lookup "soil_moisture" =
        some (FVal.num 0)) :=
  weather_aggregation_means probe_weather [] 1 c6_market none 6
    (by decide) (by decide) (by decide)

/-- C7: evaluation of the multi-crop recommendation.  With market data present
for crops A and B and absent for C, the source never reaches its sort: the
call to the nonexistent DataProcessor.combine_features raises AttributeError
on the first crop with data.  Only when every crop lacks market data does the
method return, with the empty result list (all crops skipped). -/
theorem ranking_aborts_on_missing_helper :
    get_comprehensive_prediction false c7_market ["A", "B", "C"] =
      .error "AttributeError: DataProcessor object has no attribute combine_features" ∧
    get_comprehensive_prediction false (fun _ => none) ["A", "B", "C"] = .ok [] := by
  constructor
  · rfl
  · rfl
